import Mathlib

/-!
Verification development for the nev_gcs ground-control station.

The Python sources are shallowly embedded:
* floats are modelled as rationals (`ℚ`);
* a Python object's attribute dictionary (dataclass instance or plain
  `dict`) is modelled as an insertion-ordered association list
  `Obj = List (String × Value)`;
* `time.monotonic()` / `time.time()` are passed explicitly as a `Clock`;
* the asyncio send loop body (`run_send_loop` in vehicle_bridge.py) is
  modelled as one step function over its timer state.
-/

namespace NevGcs

/-- A dynamically-typed Python value as it appears in the GCS state:
ints, floats (as `ℚ`), bools and strings. -/
inductive Value where
  | i : Int → Value
  | q : ℚ → Value
  | b : Bool → Value
  | s : String → Value
deriving DecidableEq, Repr

/-- Python truthiness (`bool(x)`), used by `if ctrl.estop` style tests.
A missing attribute would raise in Python; the theorems below only read
attributes that exist. -/
def Value.truthy : Option Value → Bool
  | some (.i m) => m != 0
  | some (.q x) => x != 0
  | some (.b bb) => bb
  | some (.s str) => str != ""
  | none => false

/-- Python `x == n` against an int literal (`True == 1` holds in Python). -/
def Value.eqInt : Option Value → Int → Bool
  | some (.i m), n => m == n
  | some (.q x), n => x == (n : ℚ)
  | some (.b bb), n => (if bb then (1 : Int) else 0) == n
  | _, _ => false

/-- Numeric reading of an attribute (`float(x)` context).  A non-numeric
value would raise a TypeError in Python; the states used by the theorems
below always hold numbers in numeric slots. -/
def Value.num : Option Value → ℚ
  | some (.q x) => x
  | some (.i n) => (n : ℚ)
  | some (.b bb) => if bb then 1 else 0
  | _ => 0

/-- A Python attribute dictionary / `dict`: insertion-ordered list of
key-value pairs. -/
abbrev Obj := List (String × Value)

/-- Python `hasattr(o, k)` / `k in o`. -/
def Obj.hasKey (o : Obj) (k : String) : Bool := o.any (fun p => p.1 == k)

/-- Overwrite the value at an existing key, keeping its position
(Python overwrites in place; keys never move). -/
def Obj.setVal (o : Obj) (k : String) (v : Value) : Obj :=
  o.map (fun p => if p.1 == k then (k, v) else p)

/-- Attribute read: `getattr(o, k)` as an `Option`. -/
def Obj.getVal (o : Obj) (k : String) : Option Value :=
  (o.find? (fun p => p.1 == k)).map (fun p => p.2)

/-- Python attribute assignment / `d[k] = v`: overwrite when present,
append a new key otherwise. -/
def Obj.setPut (o : Obj) (k : String) (v : Value) : Obj :=
  if Obj.hasKey o k then Obj.setVal o k v else o ++ [(k, v)]

/-- Python `d.update(data)` on a dict: each pair in order, overwrite or
append. -/
def Obj.dictUpdate (o : Obj) (data : List (String × Value)) : Obj :=
  data.foldl (fun acc kv => Obj.setPut acc kv.1 kv.2) o

/-- The attribute-guarded merge of `SharedState.update_packet`:
`for k, v in data.items(): if hasattr(obj, k): setattr(obj, k, v)`. -/
def Obj.applyFields (o : Obj) (data : List (String × Value)) : Obj :=
  data.foldl (fun acc kv => if Obj.hasKey acc kv.1 then Obj.setVal acc kv.1 kv.2 else acc) o

/-- First-defined choice on optional values.  Used to phrase merge
characterizations. -/
def orOpt (a b : Option Value) : Option Value :=
  match a with
  | some v => some v
  | none => b

/-- The value carried by the last occurrence of key `k` in a field map. -/
def lookupLast : List (String × Value) → String → Option Value
  | [], _ => none
  | kv :: rest, k =>
      orOpt (lookupLast rest k) (if kv.1 = k then some kv.2 else none)

/- ### Association-list lemmas -/

theorem Obj.hasKey_cons (p : String × Value) (rest : Obj) (k : String) :
    Obj.hasKey (p :: rest) k = ((p.1 == k) || Obj.hasKey rest k) := by
  simp [Obj.hasKey]

theorem Obj.hasKey_append (o o' : Obj) (k : String) :
    Obj.hasKey (o ++ o') k = (Obj.hasKey o k || Obj.hasKey o' k) := by
  simp [Obj.hasKey, List.any_append]

theorem Obj.setVal_cons (p : String × Value) (rest : Obj) (k : String) (v : Value) :
    Obj.setVal (p :: rest) k v =
      (if p.1 = k then (k, v) else p) :: Obj.setVal rest k v := by
  simp only [Obj.setVal, List.map_cons, beq_iff_eq]

theorem Obj.getVal_nil (k : String) : Obj.getVal [] k = none := rfl

theorem Obj.getVal_cons (p : String × Value) (rest : Obj) (k : String) :
    Obj.getVal (p :: rest) k =
      if p.1 = k then some p.2 else Obj.getVal rest k := by
  by_cases h : p.1 = k
  · simp only [Obj.getVal, if_pos h]
    rw [List.find?_cons_of_pos _ (by simp [h])]
    rfl
  · simp only [Obj.getVal, if_neg h]
    rw [List.find?_cons_of_neg _ (by simp [h])]

theorem Obj.keys_setVal (o : Obj) (k : String) (v : Value) :
    (Obj.setVal o k v).map Prod.fst = o.map Prod.fst := by
  induction o with
  | nil => rfl
  | cons p rest ih =>
    rw [Obj.setVal_cons, List.map_cons, List.map_cons, ih]
    by_cases h : p.1 = k
    · rw [if_pos h]; rw [h]
    · rw [if_neg h]

theorem Obj.hasKey_eq_keys (o : Obj) (k : String) :
    Obj.hasKey o k = (o.map Prod.fst).any (fun s => s == k) := by
  induction o with
  | nil => rfl
  | cons p rest ih => rw [Obj.hasKey_cons, List.map_cons, List.any_cons, ih]

theorem Obj.hasKey_setVal (o : Obj) (k k' : String) (v : Value) :
    Obj.hasKey (Obj.setVal o k v) k' = Obj.hasKey o k' := by
  rw [Obj.hasKey_eq_keys, Obj.hasKey_eq_keys, Obj.keys_setVal]

theorem Obj.getVal_setVal_self (o : Obj) (k : String) (v : Value)
    (h : Obj.hasKey o k = true) : Obj.getVal (Obj.setVal o k v) k = some v := by
  induction o with
  | nil => simp [Obj.hasKey] at h
  | cons p rest ih =>
    rw [Obj.setVal_cons]
    by_cases hp : p.1 = k
    · rw [if_pos hp, Obj.getVal_cons, if_pos rfl]
    · rw [if_neg hp, Obj.getVal_cons, if_neg hp]
      apply ih
      rw [Obj.hasKey_cons] at h
      simpa [hp] using h

theorem Obj.getVal_setVal_ne (o : Obj) (k k' : String) (v : Value)
    (h : k' ≠ k) : Obj.getVal (Obj.setVal o k v) k' = Obj.getVal o k' := by
  induction o with
  | nil => rfl
  | cons p rest ih =>
    rw [Obj.setVal_cons]
    by_cases hp : p.1 = k
    · rw [if_pos hp, Obj.getVal_cons, Obj.getVal_cons,
        if_neg (fun hh : (k, v).1 = k' => h hh.symm),
        if_neg (by rw [hp]; exact fun hh => h hh.symm), ih]
    · rw [if_neg hp, Obj.getVal_cons, Obj.getVal_cons, ih]

theorem Obj.getVal_eq_none_of_not_hasKey (o : Obj) (k : String)
    (h : Obj.hasKey o k = false) : Obj.getVal o k = none := by
  induction o with
  | nil => rfl
  | cons p rest ih =>
    rw [Obj.hasKey_cons, Bool.or_eq_false_iff] at h
    rw [Obj.getVal_cons, if_neg (by simpa using h.1)]
    exact ih h.2

theorem Obj.getVal_append (o o' : Obj) (k : String) :
    Obj.getVal (o ++ o') k = orOpt (Obj.getVal o k) (Obj.getVal o' k) := by
  induction o with
  | nil => simp [Obj.getVal_nil, orOpt]
  | cons p rest ih =>
    rw [List.cons_append, Obj.getVal_cons, Obj.getVal_cons]
    by_cases hp : p.1 = k
    · rw [if_pos hp, if_pos hp]; rfl
    · rw [if_neg hp, if_neg hp, ih]

theorem Obj.getVal_setPut_self (o : Obj) (k : String) (v : Value) :
    Obj.getVal (Obj.setPut o k v) k = some v := by
  rw [Obj.setPut]
  by_cases h : Obj.hasKey o k = true
  · rw [if_pos h]; exact Obj.getVal_setVal_self o k v h
  · have h0 : Obj.hasKey o k = false := by simpa using h
    rw [h0, if_neg (by simp), Obj.getVal_append,
      Obj.getVal_eq_none_of_not_hasKey o k h0]
    simp [Obj.getVal_cons, orOpt]

theorem Obj.getVal_setPut_ne (o : Obj) (k k' : String) (v : Value)
    (h : k' ≠ k) : Obj.getVal (Obj.setPut o k v) k' = Obj.getVal o k' := by
  rw [Obj.setPut]
  by_cases hk : Obj.hasKey o k = true
  · rw [if_pos hk]; exact Obj.getVal_setVal_ne o k k' v h
  · rw [if_neg hk, Obj.getVal_append]
    have h1 : Obj.getVal [(k, v)] k' = none := by
      rw [Obj.getVal_cons, if_neg (fun hh : k = k' => h hh.symm), Obj.getVal_nil]
    rw [h1]
    cases Obj.getVal o k' <;> rfl

theorem Obj.hasKey_setPut_ne (o : Obj) (k k' : String) (v : Value)
    (h : k' ≠ k) : Obj.hasKey (Obj.setPut o k v) k' = Obj.hasKey o k' := by
  rw [Obj.setPut]
  by_cases hk : Obj.hasKey o k = true
  · rw [if_pos hk, Obj.hasKey_setVal]
  · rw [if_neg hk, Obj.hasKey_append, Obj.hasKey_cons]
    have : ¬ ((k : String) == k') = true := by
      simp only [beq_iff_eq]
      exact fun hh => h hh.symm
    simp [Obj.hasKey, this]

/-- Characterization of the Python `dict.update` merge: a key named in
the field map ends up with its last given value, every other key keeps
its old value. -/
theorem Obj.getVal_dictUpdate (data : List (String × Value)) (o : Obj) (k : String) :
    Obj.getVal (Obj.dictUpdate o data) k =
      orOpt (lookupLast data k) (Obj.getVal o k) := by
  induction data generalizing o with
  | nil => rfl
  | cons kv rest ih =>
    show Obj.getVal (Obj.dictUpdate (Obj.setPut o kv.1 kv.2) rest) k = _
    rw [ih]
    by_cases hk : kv.1 = k
    · rw [hk, Obj.getVal_setPut_self]
      show _ = orOpt (orOpt (lookupLast rest k) (if kv.1 = k then some kv.2 else none)) _
      rw [if_pos hk]
      cases lookupLast rest k <;> rfl
    · rw [Obj.getVal_setPut_ne o kv.1 k kv.2 (fun hh => hk hh.symm)]
      show _ = orOpt (orOpt (lookupLast rest k) (if kv.1 = k then some kv.2 else none)) _
      rw [if_neg hk]
      cases lookupLast rest k <;> rfl

/-- The guarded merge of `update_packet` never adds a field: the key
list is unchanged. -/
theorem Obj.keys_applyFields (data : List (String × Value)) (o : Obj) :
    (Obj.applyFields o data).map Prod.fst = o.map Prod.fst := by
  induction data generalizing o with
  | nil => rfl
  | cons kv rest ih =>
    show ((Obj.applyFields (if Obj.hasKey o kv.1 then Obj.setVal o kv.1 kv.2 else o) rest).map
      Prod.fst) = _
    by_cases h : Obj.hasKey o kv.1 = true
    · rw [if_pos h, ih, Obj.keys_setVal]
    · rw [if_neg h, ih]

theorem Obj.hasKey_applyFields (data : List (String × Value)) (o : Obj) (k : String) :
    Obj.hasKey (Obj.applyFields o data) k = Obj.hasKey o k := by
  rw [Obj.hasKey_eq_keys, Obj.hasKey_eq_keys, Obj.keys_applyFields]

/-- Characterization of the attribute-guarded merge: a field of the
schema named in the map gets its last given value, unknown names are
ignored, untouched fields keep their values. -/
theorem Obj.getVal_applyFields (data : List (String × Value)) (o : Obj) (k : String) :
    Obj.getVal (Obj.applyFields o data) k =
      if Obj.hasKey o k then orOpt (lookupLast data k) (Obj.getVal o k)
      else Obj.getVal o k := by
  induction data generalizing o with
  | nil =>
    by_cases h : Obj.hasKey o k = true
    · rw [if_pos h]; rfl
    · rw [if_neg h]; rfl
  | cons kv rest ih =>
    show Obj.getVal
      (Obj.applyFields (if Obj.hasKey o kv.1 then Obj.setVal o kv.1 kv.2 else o) rest) k = _
    by_cases hko : Obj.hasKey o k = true
    · rw [if_pos hko]
      show _ = orOpt (orOpt (lookupLast rest k) (if kv.1 = k then some kv.2 else none)) _
      by_cases hkv : kv.1 = k
      · rw [if_pos hkv]
        have hstep : Obj.hasKey o kv.1 = true := by rw [hkv]; exact hko
        rw [if_pos hstep, ih, Obj.hasKey_setVal, if_pos hko, hkv,
          Obj.getVal_setVal_self o k kv.2 hko]
        cases lookupLast rest k <;> rfl
      · rw [if_neg hkv]
        by_cases hstep : Obj.hasKey o kv.1 = true
        · rw [if_pos hstep, ih, Obj.hasKey_setVal, if_pos hko,
            Obj.getVal_setVal_ne o kv.1 k kv.2 (fun hh => hkv hh.symm)]
          cases lookupLast rest k <;> rfl
        · rw [if_neg hstep, ih, if_pos hko]
          cases lookupLast rest k <;> rfl
    · rw [if_neg hko]
      by_cases hkv : kv.1 = k
      · have hstep : Obj.hasKey o kv.1 = false := by
          rw [hkv]; simpa using hko
        rw [hstep, if_neg (by simp), ih, if_neg hko]
      · by_cases hstep : Obj.hasKey o kv.1 = true
        · rw [if_pos hstep, ih, Obj.hasKey_setVal, if_neg hko,
            Obj.getVal_setVal_ne o kv.1 k kv.2 (fun hh => hkv hh.symm)]
        · rw [if_neg hstep, ih, if_neg hko]

/- ### The Shared State Store (state.py) -/

/-- One entry of the alert list (`Alert` dataclass). -/
structure Alert where
  level : String
  message : String
deriving DecidableEq, Repr

/-- A bounded per-consumer sink (an `asyncio.Queue(maxsize=…)`); in
asyncio a maxsize of zero or less means unbounded. -/
structure Sink where
  maxsize : Int
  items : List String
deriving DecidableEq, Repr

/-- The call `q.put_nowait` raises QueueFull exactly when the queue is bounded
and at capacity. -/
def Sink.isFull (q : Sink) : Bool :=
  decide (0 < q.maxsize) && decide (q.maxsize ≤ (q.items.length : Int))

/-- The two clocks the code reads: `time.monotonic()` and `time.time()`. -/
structure Clock where
  mono : ℚ
  wall : ℚ
deriving DecidableEq, Repr

/-- Default `MuxStatus()`. -/
def initMux : Obj :=
  [("requested_mode", .i (-1)), ("active_source", .i (-1)),
   ("remote_enabled", .b false), ("nav_active", .b false),
   ("teleop_active", .b false), ("final_active", .b false)]

/-- Default `TwistValues()`. -/
def initTwist : Obj :=
  [("nav_lx", .q 0), ("nav_az", .q 0), ("teleop_lx", .q 0),
   ("teleop_az", .q 0), ("final_lx", .q 0), ("final_az", .q 0)]

/-- Default `NetworkStatus()`. -/
def initNetwork : Obj :=
  [("connected", .b false), ("status_code", .i 2),
   ("rtt_ms", .q 0), ("bandwidth_mbps", .q 0)]

/-- Default `HunterStatus()`. -/
def initHunter : Obj :=
  [("linear_vel", .q 0), ("steering_angle", .q 0), ("vehicle_state", .i 0),
   ("control_mode", .i 0), ("error_code", .i 0), ("battery_voltage", .q 0)]

/-- Default `EStopStatus()`. -/
def initEStop : Obj :=
  [("is_estop", .b false), ("bridge_flag", .i 0), ("mux_flag", .i 0)]

/-- Default `SystemResources()`. -/
def initResources : Obj :=
  [("cpu_phys", .i 0), ("cpu_logic", .i 0), ("cpu_usage", .q 0),
   ("cpu_temp", .q 0), ("cpu_load", .q 0), ("ram_total", .i 0),
   ("ram_used", .i 0), ("net_total_ifaces", .i 0),
   ("net_active_ifaces", .i 0), ("net_down_ifaces", .i 0)]

/-- Default `ControlState()`. -/
def initControl : Obj :=
  [("mode", .i (-1)), ("estop", .b false), ("linear_x", .q 0),
   ("angular_z", .q 0), ("raw_speed", .q 0), ("raw_steer", .q 0),
   ("joystick_connected", .b false)]

/-- The `SharedState` class (state.py): the single mutable source of truth. -/
structure SharedState where
  mux : Obj
  twist : Obj
  network : Obj
  hunter : Obj
  estop : Obj
  resources : Obj
  remote_enabled : Bool
  control : Obj
  alerts : List Alert
  last_vehicle_recv : ℚ
  gpu_list : List Obj
  disk_partitions : List Obj
  net_interfaces : List Obj
  subscribers : List Sink
deriving DecidableEq, Repr

/-- The constructor `SharedState.__init__`. -/
def SharedState.init : SharedState :=
  { mux := initMux, twist := initTwist, network := initNetwork,
    hunter := initHunter, estop := initEStop, resources := initResources,
    remote_enabled := false, control := initControl, alerts := [],
    last_vehicle_recv := 0, gpu_list := [], disk_partitions := [],
    net_interfaces := [], subscribers := [] }

/-- The keys for which `getattr(self, key)` yields a mergeable
sub-struct. -/
def subStructKeys : List String :=
  ["mux", "twist", "network", "hunter", "estop", "resources", "control"]

/-- Every attribute name a `SharedState` instance carries (data fields
and methods).  Python's implicit dunder attributes are outside the
model; the claims below only use keys naming no attribute at all. -/
def storeAttrNames : List String :=
  ["mux", "twist", "network", "hunter", "estop", "resources",
   "remote_enabled", "control", "alerts", "last_vehicle_recv",
   "gpu_list", "disk_partitions", "net_interfaces", "_subscribers",
   "update_packet", "_upsert_list", "update_gpu", "update_disk_partition",
   "update_net_interface", "update_remote_enabled", "_validate",
   "_broadcast_sync", "add_subscriber", "remove_subscriber", "to_json"]

/-- The lookup `getattr(self, key, None)` restricted to the sub-struct attributes;
the non-`Obj` attributes of the store are never merged into by the
claims below. -/
def SharedState.getSub (s : SharedState) (key : String) : Option Obj :=
  if key = "mux" then some s.mux
  else if key = "twist" then some s.twist
  else if key = "network" then some s.network
  else if key = "hunter" then some s.hunter
  else if key = "estop" then some s.estop
  else if key = "resources" then some s.resources
  else if key = "control" then some s.control
  else none

/-- Write a sub-struct back under its key. -/
def SharedState.setSub (s : SharedState) (key : String) (o : Obj) : SharedState :=
  if key = "mux" then { s with mux := o }
  else if key = "twist" then { s with twist := o }
  else if key = "network" then { s with network := o }
  else if key = "hunter" then { s with hunter := o }
  else if key = "estop" then { s with estop := o }
  else if key = "resources" then { s with resources := o }
  else if key = "control" then { s with control := o }
  else s

/-- Python `f-string` rendering of a nonnegative rational with one
decimal digit, as in `f'No vehicle data for {age:.1f}s'` (Python rounds
ties to even; the ages used below are not ties). -/
def fmt1 (x : ℚ) : String :=
  let n : Int := round (10 * x)
  toString (n / 10) ++ "." ++ toString (n % 10)

/-- Body of `SharedState._validate` (state.py): recompute the alert list from
the current field values. -/
def computeAlerts (s : SharedState) (now : ℚ) : List Alert :=
  let a0 : List Alert := []
  let a1 := if Value.truthy (Obj.getVal s.estop "is_estop") &&
      (decide ((0.05 : ℚ) < |Value.num (Obj.getVal s.twist "final_lx")|) ||
       decide ((0.05 : ℚ) < |Value.num (Obj.getVal s.twist "final_az")|))
    then a0 ++ [⟨"error", "E-STOP active but vehicle is moving!"⟩] else a0
  let a2 := if Value.truthy (Obj.getVal s.control "estop") &&
      !(Value.truthy (Obj.getVal s.estop "is_estop"))
    then a1 ++ [⟨"warn", "E-stop sent — waiting for vehicle confirmation"⟩] else a1
  let a3 := if Value.eqInt (Obj.getVal s.mux "requested_mode") 2 &&
      Value.truthy (Obj.getVal s.mux "remote_enabled") &&
      !(Value.truthy (Obj.getVal s.mux "teleop_active"))
    then a2 ++ [⟨"warn", "Remote mode active but no teleop commands received"⟩] else a2
  let a4 := if 0 < s.last_vehicle_recv then
      (let age := now - s.last_vehicle_recv
       if 3 < age then
         a3 ++ [⟨"error", "No vehicle data for " ++ fmt1 age ++ "s"⟩]
       else a3)
    else a3
  a4

/-- Method `self._validate()`: replaces the alert list. -/
def SharedState.validate (s : SharedState) (now : ℚ) : SharedState :=
  { s with alerts := computeAlerts s now }

/-- JSON rendering of a value (numbers are rendered as rationals in
this embedding). -/
def Value.toJson : Value → String
  | .i n => toString n
  | .q x => toString x
  | .b bb => if bb then "true" else "false"
  | .s str => "\"" ++ str ++ "\""

/-- JSON rendering of an attribute dictionary. -/
def Obj.toJson (o : Obj) : String :=
  "\x7b" ++ String.intercalate ", "
    (o.map (fun p => "\"" ++ p.1 ++ "\": " ++ Value.toJson p.2)) ++ "\x7d"

/-- JSON rendering of an alert. -/
def Alert.toJson (a : Alert) : String :=
  "\x7b\"level\": \"" ++ a.level ++ "\", \"message\": \"" ++ a.message ++ "\"\x7d"

/-- JSON rendering of a list of dictionaries. -/
def listToJson (l : List Obj) : String :=
  "[" ++ String.intercalate ", " (l.map Obj.toJson) ++ "]"

/-- Method `SharedState.to_json` (state.py): the full serialized snapshot,
including wall-clock server time and the derived vehicle age. -/
def SharedState.to_json (s : SharedState) (t : Clock) : String :=
  "\x7b\"mux\": " ++ Obj.toJson s.mux ++
  ", \"twist\": " ++ Obj.toJson s.twist ++
  ", \"network\": " ++ Obj.toJson s.network ++
  ", \"hunter\": " ++ Obj.toJson s.hunter ++
  ", \"estop\": " ++ Obj.toJson s.estop ++
  ", \"resources\": " ++ Obj.toJson s.resources ++
  ", \"gpu_list\": " ++ listToJson s.gpu_list ++
  ", \"disk_partitions\": " ++ listToJson s.disk_partitions ++
  ", \"net_interfaces\": " ++ listToJson s.net_interfaces ++
  ", \"remote_enabled\": " ++ (if s.remote_enabled then "true" else "false") ++
  ", \"control\": " ++ Obj.toJson s.control ++
  ", \"alerts\": [" ++ String.intercalate ", " (s.alerts.map Alert.toJson) ++ "]" ++
  ", \"server_time\": " ++ toString t.wall ++
  ", \"vehicle_age\": " ++
    (if 0 < s.last_vehicle_recv then toString (t.mono - s.last_vehicle_recv)
     else toString (-1 : ℚ)) ++
  "\x7d"

/-- Method `SharedState._broadcast_sync` (state.py): serialize the snapshot
once, then non-blocking push to every registered sink; a full sink is
skipped (QueueFull is swallowed by the bare except). -/
def SharedState.broadcast_sync (s : SharedState) (t : Clock) : SharedState :=
  let data := s.to_json t
  { s with subscribers :=
      s.subscribers.map (fun q =>
        if Sink.isFull q then q else { q with items := q.items ++ [data] }) }

/-- Method `SharedState.update_packet` (state.py): guarded field merge into the
named sub-struct, then stamp, validate and broadcast. -/
def SharedState.update_packet (s : SharedState) (t : Clock) (key : String)
    (data : List (String × Value)) : SharedState :=
  match s.getSub key with
  | none => s
  | some obj =>
      let obj2 := Obj.applyFields obj data
      let s2 := s.setSub key obj2
      let s3 := { s2 with last_vehicle_recv := t.mono }
      let s4 := s3.validate t.mono
      s4.broadcast_sync t

/-- Method `SharedState._upsert_list` (state.py): grow with empty dicts up to
`idx`, then `lst[idx].update(data)`. -/
def upsert_list (lst : List Obj) (idx : Nat) (data : List (String × Value)) : List Obj :=
  let lst2 := if lst.length ≤ idx
    then lst ++ List.replicate (idx + 1 - lst.length) ([] : Obj)
    else lst
  lst2.set idx (Obj.dictUpdate (lst2.getD idx []) data)

/-- Method `SharedState.update_gpu` (state.py): upsert, stamp, broadcast. -/
def SharedState.update_gpu (s : SharedState) (t : Clock) (idx : Nat)
    (data : List (String × Value)) : SharedState :=
  let s1 := { s with gpu_list := upsert_list s.gpu_list idx data }
  let s2 := { s1 with last_vehicle_recv := t.mono }
  s2.broadcast_sync t

/-- Method `SharedState.update_disk_partition` (state.py). -/
def SharedState.update_disk_partition (s : SharedState) (t : Clock) (idx : Nat)
    (data : List (String × Value)) : SharedState :=
  let s1 := { s with disk_partitions := upsert_list s.disk_partitions idx data }
  let s2 := { s1 with last_vehicle_recv := t.mono }
  s2.broadcast_sync t

/-- Method `SharedState.update_net_interface` (state.py). -/
def SharedState.update_net_interface (s : SharedState) (t : Clock) (idx : Nat)
    (data : List (String × Value)) : SharedState :=
  let s1 := { s with net_interfaces := upsert_list s.net_interfaces idx data }
  let s2 := { s1 with last_vehicle_recv := t.mono }
  s2.broadcast_sync t

/-- Method `SharedState.update_remote_enabled` (state.py). -/
def SharedState.update_remote_enabled (s : SharedState) (t : Clock) (val : Bool) :
    SharedState :=
  ({ s with remote_enabled := val }).broadcast_sync t

/- ### The vehicle bridge (vehicle_bridge.py) -/

/-- Python `round(x, 3)` (rounds half to even; the inputs used by the
theorems below are not ties). -/
def round3 (x : ℚ) : ℚ := ((round (1000 * x) : Int) : ℚ) / 1000

/-- Payload of one outbound zenoh message, per kind. -/
inductive MsgBody where
  | heartbeat (ts : ℚ)
  | teleop (linear_x angular_z : ℚ)
  | estopCmd (active : Bool)
  | cmdMode (mode : Int)
deriving DecidableEq, Repr

/-- One transmitted message: payload plus the `seq` field it carried. -/
structure SentMsg where
  body : MsgBody
  seq : Nat
deriving DecidableEq, Repr

def SentMsg.isTeleop : SentMsg → Bool
  | ⟨.teleop _ _, _⟩ => true
  | _ => false

/-- The `VehicleProtocol` class: only the sequence counter matters for the
outbound contract (`self._seq = 0`; one counter for the whole object). -/
structure VehicleProtocol where
  seq : Nat
deriving DecidableEq, Repr

/-- Method `VehicleProtocol._next_seq`: return the counter, then advance it
modulo 65536. -/
def VehicleProtocol.next_seq (p : VehicleProtocol) : Nat × VehicleProtocol :=
  (p.seq, ⟨(p.seq + 1) % 65536⟩)

/-- Method `send_heartbeat`. -/
def VehicleProtocol.send_heartbeat (p : VehicleProtocol) (ts : ℚ) :
    VehicleProtocol × SentMsg :=
  let (sq, p') := p.next_seq
  (p', ⟨.heartbeat ts, sq⟩)

/-- Method `send_teleop` (rounds both floats to three decimals). -/
def VehicleProtocol.send_teleop (p : VehicleProtocol) (lx az : ℚ) :
    VehicleProtocol × SentMsg :=
  let (sq, p') := p.next_seq
  (p', ⟨.teleop (round3 lx) (round3 az), sq⟩)

/-- Method `send_estop`. -/
def VehicleProtocol.send_estop (p : VehicleProtocol) (activate : Bool) :
    VehicleProtocol × SentMsg :=
  let (sq, p') := p.next_seq
  (p', ⟨.estopCmd activate, sq⟩)

/-- Method `send_cmd_mode`. -/
def VehicleProtocol.send_cmd_mode (p : VehicleProtocol) (mode : Int) :
    VehicleProtocol × SentMsg :=
  let (sq, p') := p.next_seq
  (p', ⟨.cmdMode mode, sq⟩)

/-- A request to transmit one message of a given kind. -/
inductive SendCall where
  | heartbeat (ts : ℚ)
  | teleop (lx az : ℚ)
  | estopCmd (active : Bool)
  | cmdMode (mode : Int)
deriving DecidableEq, Repr

/-- Dispatch one send call to the corresponding publisher method. -/
def VehicleProtocol.sendOne (p : VehicleProtocol) : SendCall → VehicleProtocol × SentMsg
  | .heartbeat ts => p.send_heartbeat ts
  | .teleop lx az => p.send_teleop lx az
  | .estopCmd a => p.send_estop a
  | .cmdMode m => p.send_cmd_mode m

/-- An interleaving of sends: each call transmits one message. -/
def VehicleProtocol.sendMany (p : VehicleProtocol) :
    List SendCall → VehicleProtocol × List SentMsg
  | [] => (p, [])
  | c :: rest =>
      (((p.sendOne c).1.sendMany rest).1,
       (p.sendOne c).2 :: ((p.sendOne c).1.sendMany rest).2)

/- ### The web transport's calls into the core (web/server.py) -/

/-- Result of the `/api/cmd_mode` endpoint. -/
inductive CmdModeResp where
  | accepted (mode : Int)
  | rejected (error : String)
deriving DecidableEq, Repr

/-- Endpoint `set_cmd_mode` (web/server.py): reject any mode outside
`(-1, 0, 1, 2)` without mutating; otherwise set `control.mode` and
transmit the mode command. -/
def set_cmd_mode (s : SharedState) (p : VehicleProtocol) (mode : Int) :
    SharedState × VehicleProtocol × List SentMsg × CmdModeResp :=
  if mode ∈ ([-1, 0, 1, 2] : List Int) then
    let s' := { s with control := Obj.setPut s.control "mode" (.i mode) }
    let (p', m) := p.send_cmd_mode mode
    (s', p', [m], .accepted mode)
  else
    (s, p, [], .rejected ("invalid mode: " ++ toString mode))

/- ### The operator input driver's deadzone (joystick.py) -/

/-- Method `JoystickHandler._apply_deadzone` (joystick.py). -/
def apply_deadzone (deadzone : ℚ) (value : ℚ) : ℚ :=
  if |value| < deadzone then 0
  else (if 0 < value then 1 else -1) * (|value| - deadzone) / (1 - deadzone)

/- ### The periodic send loop (vehicle_bridge.py, run_send_loop) -/

/-- The three intervals `run_send_loop` derives from its config. -/
structure SendCfg where
  hb_interval : ℚ
  tc_interval : ℚ
  push_interval : ℚ
deriving DecidableEq, Repr

/-- Intervals `hb_interval = 1/heartbeat_rate`, `tc_interval = 1/teleop_rate`,
`push_interval = state_push_interval`. -/
def mkSendCfg (heartbeat_rate teleop_rate state_push_interval : ℚ) : SendCfg :=
  ⟨1 / heartbeat_rate, 1 / teleop_rate, state_push_interval⟩

/-- The loop-local timers `last_hb`, `last_tc`, `last_push`. -/
structure LoopTimers where
  last_hb : ℚ
  last_tc : ℚ
  last_push : ℚ
deriving DecidableEq, Repr

/-- The teleop gate of the send loop:
`ctrl.mode == 2 and not ctrl.estop`, read from the store's control
sub-struct at the current tick. -/
def teleopGate (s : SharedState) : Bool :=
  Value.eqInt (Obj.getVal s.control "mode") 2 &&
  !(Value.truthy (Obj.getVal s.control "estop"))

/-- One iteration of the `while True` body of `run_send_loop`
(vehicle_bridge.py): heartbeat when due, rate-gated teleop when due
(the tick is consumed either way), periodic re-validation/broadcast.
Returns the store, the protocol, the timers and the messages this
iteration transmitted. -/
def run_send_loop_tick (cfg : SendCfg) (s : SharedState) (p : VehicleProtocol)
    (tm : LoopTimers) (t : Clock) :
    SharedState × VehicleProtocol × LoopTimers × List SentMsg :=
  let now := t.mono
  let hbFire := decide (cfg.hb_interval ≤ now - tm.last_hb)
  let tcFire := decide (cfg.tc_interval ≤ now - tm.last_tc)
  let pushFire := decide (cfg.push_interval ≤ now - tm.last_push)
  let (p1, hbMsgs) :=
    if hbFire then
      let r := p.send_heartbeat t.wall
      (r.1, [r.2])
    else (p, ([] : List SentMsg))
  let (p2, tcMsgs) :=
    if tcFire && teleopGate s then
      let r := p1.send_teleop (Value.num (Obj.getVal s.control "linear_x"))
        (Value.num (Obj.getVal s.control "angular_z"))
      (r.1, [r.2])
    else (p1, ([] : List SentMsg))
  let tm' : LoopTimers :=
    { last_hb := if hbFire then now else tm.last_hb,
      last_tc := if tcFire then now else tm.last_tc,
      last_push := if pushFire then now else tm.last_push }
  let s' := if pushFire then (s.validate now).broadcast_sync t else s
  (s', p2, tm', hbMsgs ++ tcMsgs)

/- ### Supporting lemmas for the claims -/

theorem apply_deadzone_abs (d v : ℚ) (hd1 : d < 1) (h : d ≤ |v|) :
    |apply_deadzone d v| = (|v| - d) / (1 - d) := by
  unfold apply_deadzone
  rw [if_neg (not_lt.mpr h)]
  rw [abs_div, abs_mul]
  have h1 : (0 : ℚ) < 1 - d := by linarith
  have h2 : |(if 0 < v then (1 : ℚ) else -1)| = 1 := by
    by_cases hv : 0 < v <;> simp [hv]
  rw [h2, one_mul, abs_of_nonneg (by linarith : (0 : ℚ) ≤ |v| - d), abs_of_pos h1]

theorem sendOne_shape (p : VehicleProtocol) (c : SendCall) :
    (p.sendOne c).1 = ⟨(p.seq + 1) % 65536⟩ ∧ (p.sendOne c).2.seq = p.seq := by
  cases c <;>
    simp [VehicleProtocol.sendOne, VehicleProtocol.send_heartbeat,
      VehicleProtocol.send_teleop, VehicleProtocol.send_estop,
      VehicleProtocol.send_cmd_mode, VehicleProtocol.next_seq]

/- ### Claim theorems -/

/-- C6: the deadzone function returns exactly 0 below the threshold and
at the boundary, maps full deflection to magnitude 1, is monotone in the
input magnitude above the threshold, and preserves the input's sign. -/
theorem deadzone_spec (d v v1 v2 : ℚ) (hd0 : 0 ≤ d) (hd1 : d < 1) :
    (|v| < d → apply_deadzone d v = 0) ∧
    (|v| = d → apply_deadzone d v = 0) ∧
    (|v| = 1 → |apply_deadzone d v| = 1) ∧
    (d ≤ |v1| → |v1| ≤ |v2| → |apply_deadzone d v1| ≤ |apply_deadzone d v2|) ∧
    (0 ≤ v → 0 ≤ apply_deadzone d v) ∧
    (v ≤ 0 → apply_deadzone d v ≤ 0) := by
  have h1d : (0 : ℚ) < 1 - d := by linarith
  refine ⟨?_, ?_, ?_, ?_, ?_, ?_⟩
  · intro h
    unfold apply_deadzone
    rw [if_pos h]
  · intro h
    unfold apply_deadzone
    rw [if_neg (by rw [h]; exact lt_irrefl d), h]
    simp
  · intro h
    rw [apply_deadzone_abs d v hd1 (by rw [h]; exact le_of_lt hd1), h]
    exact div_self (ne_of_gt h1d)
  · intro hv1 hv12
    rw [apply_deadzone_abs d v1 hd1 hv1,
      apply_deadzone_abs d v2 hd1 (le_trans hv1 hv12)]
    exact (div_le_div_iff_of_pos_right h1d).mpr (by linarith)
  · intro hv
    unfold apply_deadzone
    by_cases h : |v| < d
    · rw [if_pos h]
    · rw [if_neg h]
      push_neg at h
      by_cases hv0 : 0 < v
      · rw [if_pos hv0, one_mul]
        exact div_nonneg (by linarith) (by linarith)
      · have : v = 0 := le_antisymm (not_lt.mp hv0) hv
        subst this
        simp at h
        have hd : d = 0 := le_antisymm h hd0
        subst hd
        simp
  · intro hv
    unfold apply_deadzone
    by_cases h : |v| < d
    · rw [if_pos h]
    · rw [if_neg h]
      push_neg at h
      have hv0 : ¬ (0 < v) := not_lt.mpr hv
      rw [if_neg hv0, neg_one_mul, neg_div]
      have : (0 : ℚ) ≤ (|v| - d) / (1 - d) :=
        div_nonneg (by linarith) (by linarith)
      linarith

/-- C6 witness. -/
theorem deadzone_spec_witness :
    apply_deadzone (1/20) (1/50) = 0 ∧
    |apply_deadzone (1/20) (-1)| = 1 ∧
    |apply_deadzone (1/20) (1/10)| ≤ |apply_deadzone (1/20) (1/2)| ∧
    apply_deadzone (1/20) (-1) ≤ 0 := by
  have h := deadzone_spec (1/20) (1/50) (1/10) (1/2) (by norm_num) (by norm_num)
  have h' := deadzone_spec (1/20) (-1) (1/10) (1/2) (by norm_num) (by norm_num)
  refine ⟨h.1 (by norm_num [abs]), h'.2.2.1 (by norm_num [abs]), ?_, ?_⟩
  · exact h.2.2.2.1 (by rw [abs_of_pos]; norm_num; norm_num)
      (by rw [abs_of_pos, abs_of_pos]; norm_num; norm_num; norm_num)
  · exact h'.2.2.2.2.2 (by norm_num)

/-- C7: an indexed upsert grows the collection to `max n (i+1)` filling
gaps with empty placeholder dicts, never shrinks it, merges the given
fields into slot `i` (leaving fields not named in the update unchanged)
and leaves every other slot as it was. -/
theorem upsert_spec (lst : List Obj) (idx : Nat) (data : List (String × Value)) :
    (upsert_list lst idx data).length = max lst.length (idx + 1) ∧
    lst.length ≤ (upsert_list lst idx data).length ∧
    (upsert_list lst idx data)[idx]? =
      some (Obj.dictUpdate ((lst[idx]?).getD []) data) ∧
    (∀ j, j ≠ idx →
      (upsert_list lst idx data)[j]? =
        if j < lst.length then lst[j]?
        else if j < max lst.length (idx + 1) then some ([] : Obj) else none) ∧
    (∀ k, lookupLast data k = none →
      Obj.getVal (Obj.dictUpdate ((lst[idx]?).getD []) data) k =
        Obj.getVal ((lst[idx]?).getD []) k) := by
  by_cases h : lst.length ≤ idx
  · have hlen2 : (lst ++ List.replicate (idx + 1 - lst.length) ([] : Obj)).length
        = idx + 1 := by
      rw [List.length_append, List.length_replicate]
      omega
    have hmax : max lst.length (idx + 1) = idx + 1 := by omega
    have hbig : lst[idx]? = none := List.getElem?_eq_none h
    have hmid : (lst ++ List.replicate (idx + 1 - lst.length) ([] : Obj))[idx]?
        = some ([] : Obj) := by
      rw [List.getElem?_append_right h, List.getElem?_replicate]
      rw [if_pos (by omega)]
    refine ⟨?_, ?_, ?_, ?_, ?_⟩
    · rw [upsert_list, if_pos h, List.length_set, hlen2, hmax]
    · rw [upsert_list, if_pos h, List.length_set, hlen2]; omega
    · rw [upsert_list, if_pos h,
        List.getElem?_set_self (by rw [hlen2]; omega), hbig]
      simp only [Option.getD_none]
      rw [List.getD_eq_getElem?_getD, hmid]
      rfl
    · intro j hj
      rw [upsert_list, if_pos h, List.getElem?_set_ne (fun hh => hj hh.symm)]
      by_cases hjl : j < lst.length
      · rw [if_pos hjl, List.getElem?_append_left hjl]
      · rw [if_neg hjl, hmax]
        by_cases hji : j < idx + 1
        · rw [if_pos hji, List.getElem?_append_right (by omega),
            List.getElem?_replicate, if_pos (by omega)]
        · rw [if_neg hji, List.getElem?_eq_none (by rw [hlen2]; omega)]
    · intro k hk
      rw [Obj.getVal_dictUpdate, hk]
      rfl
  · push_neg at h
    have hmax : max lst.length (idx + 1) = lst.length := by omega
    refine ⟨?_, ?_, ?_, ?_, ?_⟩
    · rw [upsert_list, if_neg (by omega), List.length_set, hmax]
    · rw [upsert_list, if_neg (by omega), List.length_set]
    · rw [upsert_list, if_neg (by omega), List.getElem?_set_self h,
        List.getD_eq_getElem?_getD]
    · intro j hj
      rw [upsert_list, if_neg (by omega), List.getElem?_set_ne (fun hh => hj hh.symm)]
      by_cases hjl : j < lst.length
      · rw [if_pos hjl]
      · rw [if_neg hjl, hmax, if_neg hjl, List.getElem?_eq_none (by omega)]
    · intro k hk
      rw [Obj.getVal_dictUpdate, hk]
      rfl

/-- C7 witness: an upsert at index 5 on an empty collection yields
length 6, slots 0–4 empty, slot 5 holding the given field. -/
theorem upsert_spec_witness :
    (upsert_list [] 5 [("gpu_usage", .q 1)]).length = max 0 6 ∧
    (upsert_list [] 5 [("gpu_usage", .q 1)])[5]? =
      some (Obj.dictUpdate ((([] : List Obj)[5]?).getD []) [("gpu_usage", .q 1)]) ∧
    (upsert_list [] 5 [("gpu_usage", .q 1)])[2]? =
      (if 2 < 0 then (([] : List Obj))[2]? else if 2 < max 0 6 then some ([] : Obj) else none) ∧
    Obj.getVal (Obj.dictUpdate ((([] : List Obj)[5]?).getD []) [("gpu_usage", .q 1)]) "x" =
      Obj.getVal ((([] : List Obj)[5]?).getD []) "x" := by
  have h := upsert_spec [] 5 [("gpu_usage", .q 1)]
  exact ⟨h.1, h.2.2.1, h.2.2.2.1 2 (by decide), h.2.2.2.2 "x" (by decide)⟩

/-- C2 counterexample: the bridge keeps one shared sequence counter, so
two consecutive teleop messages separated by a heartbeat carry sequence
numbers 0 and 2 (not consecutive), and a heartbeat changes the sequence
number the next teleop message carries. -/
theorem seq_counters_counterexample :
    ((((VehicleProtocol.sendMany ⟨0⟩
          [.teleop 0 0, .heartbeat 0, .teleop 0 0]).2.filter
            SentMsg.isTeleop).map SentMsg.seq) = [0, 2]) ∧
    ¬ ((2 : Nat) = (0 + 1) % 65536) ∧
    ((((VehicleProtocol.sendMany ⟨0⟩ [.heartbeat 0, .teleop 0 0]).2.filter
        SentMsg.isTeleop).map SentMsg.seq) = [1]) ∧
    ((((VehicleProtocol.sendMany ⟨0⟩ [.teleop 0 0]).2.filter
        SentMsg.isTeleop).map SentMsg.seq) = [0]) := by
  refine ⟨?_, by decide, ?_, ?_⟩ <;> rfl

/-- C2 amended: all four outbound kinds share one sequence counter that
advances on every transmission and wraps at 65536: across any
interleaving the i-th transmitted message (of whatever kind) carries
sequence number `(s0 + i) % 65536`. -/
theorem seq_shared_counter (p : VehicleProtocol) (calls : List SendCall)
    (h : p.seq < 65536) :
    ((p.sendMany calls).2.length = calls.length) ∧
    (∀ i, i < calls.length →
      ((p.sendMany calls).2[i]?).map SentMsg.seq = some ((p.seq + i) % 65536)) ∧
    (p.sendMany calls).1.seq = (p.seq + calls.length) % 65536 := by
  induction calls generalizing p with
  | nil =>
    refine ⟨rfl, fun i hi => absurd hi (Nat.not_lt_zero i), ?_⟩
    simp [VehicleProtocol.sendMany, Nat.mod_eq_of_lt h]
  | cons c rest ih =>
    obtain ⟨hp1, hm⟩ := sendOne_shape p c
    have h1 : ((p.sendOne c).1).seq < 65536 := by
      rw [hp1]; exact Nat.mod_lt _ (by norm_num)
    obtain ⟨ihl, ihi, ihf⟩ := ih (p.sendOne c).1 h1
    have hstep : ∀ n : Nat, (((p.sendOne c).1).seq + n) % 65536
        = (p.seq + (n + 1)) % 65536 := by
      intro n
      rw [hp1]
      show ((p.seq + 1) % 65536 + n) % 65536 = _
      rw [Nat.mod_add_mod, Nat.add_assoc, Nat.add_comm 1 n]
    have hcons : p.sendMany (c :: rest) =
        (((p.sendOne c).1.sendMany rest).1,
         (p.sendOne c).2 :: ((p.sendOne c).1.sendMany rest).2) := rfl
    refine ⟨?_, ?_, ?_⟩
    · rw [hcons, List.length_cons, ihl, List.length_cons]
    · intro i hi
      match i with
      | 0 =>
        rw [hcons, List.getElem?_cons_zero]
        simp only [Option.map_some']
        rw [hm, Nat.add_zero, Nat.mod_eq_of_lt h]
      | Nat.succ j =>
        rw [hcons, List.getElem?_cons_succ,
          ihi j (by rw [List.length_cons] at hi; omega), hstep j]
    · rw [hcons, ihf, hstep rest.length, List.length_cons]

/-- C2 amended witness. -/
theorem seq_shared_counter_witness :
    ((VehicleProtocol.sendMany ⟨65535⟩ [.heartbeat 0, .estopCmd true]).2.length = 2) ∧
    (((VehicleProtocol.sendMany ⟨65535⟩
        [.heartbeat 0, .estopCmd true]).2[1]?).map SentMsg.seq
      = some ((65535 + 1) % 65536)) := by
  have h := seq_shared_counter ⟨65535⟩ [.heartbeat 0, .estopCmd true] (by norm_num)
  exact ⟨h.1, h.2.1 1 (by norm_num)⟩

/-- C4: the commanded-mode endpoint accepts exactly the modes
-1, 0, 1, 2; on acceptance it writes `control.mode` and transmits one
mode command, on rejection it reports an error, mutates nothing and
transmits nothing. -/
theorem cmd_mode_spec (s : SharedState) (p : VehicleProtocol) (m : Int) :
    (m ∈ ([-1, 0, 1, 2] : List Int) →
      set_cmd_mode s p m =
        ({ s with control := Obj.setPut s.control "mode" (.i m) },
         ⟨(p.seq + 1) % 65536⟩, [⟨.cmdMode m, p.seq⟩], .accepted m) ∧
      Obj.getVal (set_cmd_mode s p m).1.control "mode" = some (.i m)) ∧
    (m ∉ ([-1, 0, 1, 2] : List Int) →
      set_cmd_mode s p m = (s, p, [], .rejected ("invalid mode: " ++ toString m))) := by
  constructor
  · intro h
    constructor
    · rw [set_cmd_mode, if_pos h]
      rfl
    · rw [set_cmd_mode, if_pos h]
      exact Obj.getVal_setPut_self s.control "mode" (.i m)
  · intro h
    rw [set_cmd_mode, if_neg h]

/-- C4 witness. -/
theorem cmd_mode_spec_witness :
    Obj.getVal (set_cmd_mode SharedState.init ⟨0⟩ 2).1.control "mode" = some (.i 2) ∧
    set_cmd_mode SharedState.init ⟨0⟩ 7 =
      (SharedState.init, ⟨0⟩, [], .rejected ("invalid mode: " ++ toString (7 : Int))) := by
  exact ⟨(cmd_mode_spec SharedState.init ⟨0⟩ 2).1 (by decide) |>.2,
    (cmd_mode_spec SharedState.init ⟨0⟩ 7).2 (by decide)⟩

/-- C10: a sub-struct update with a key naming no attribute of the store
is a complete no-op: the store (fields, timestamp, alerts and
subscriber sinks alike) is returned unchanged. -/
theorem unknown_key_noop (s : SharedState) (t : Clock) (key : String)
    (data : List (String × Value)) (h : key ∉ storeAttrNames) :
    s.update_packet t key data = s := by
  have hsub : s.getSub key = none := by
    simp only [storeAttrNames, List.mem_cons, not_or] at h
    obtain ⟨h1, h2, h3, h4, h5, h6, _, h8, _⟩ := h
    simp [SharedState.getSub, h1, h2, h3, h4, h5, h6, h8]
  rw [SharedState.update_packet, hsub]

/-- C10 witness. -/
theorem unknown_key_noop_witness :
    SharedState.update_packet SharedState.init ⟨1, 2⟩ "bogus" [("mode", .i 2)]
      = SharedState.init :=
  unknown_key_noop SharedState.init ⟨1, 2⟩ "bogus" [("mode", .i 2)] (by decide)

/-- C9: a broadcast serializes the snapshot once and pushes that same
string to every registered sink without blocking: a full sink is
skipped (its contents unchanged, no error raised, no backpressure),
every other sink receives the serialized snapshot appended, and nothing
else in the store changes. -/
theorem broadcast_fanout_spec (s : SharedState) (t : Clock) :
    ((s.broadcast_sync t).subscribers.length = s.subscribers.length) ∧
    (∀ i, i < s.subscribers.length → ∀ q, s.subscribers[i]? = some q →
      (Sink.isFull q = true → (s.broadcast_sync t).subscribers[i]? = some q) ∧
      (Sink.isFull q = false → (s.broadcast_sync t).subscribers[i]? =
        some { q with items := q.items ++ [s.to_json t] })) ∧
    ((s.broadcast_sync t).mux = s.mux ∧
     (s.broadcast_sync t).twist = s.twist ∧
     (s.broadcast_sync t).network = s.network ∧
     (s.broadcast_sync t).hunter = s.hunter ∧
     (s.broadcast_sync t).estop = s.estop ∧
     (s.broadcast_sync t).resources = s.resources ∧
     (s.broadcast_sync t).remote_enabled = s.remote_enabled ∧
     (s.broadcast_sync t).control = s.control ∧
     (s.broadcast_sync t).alerts = s.alerts ∧
     (s.broadcast_sync t).last_vehicle_recv = s.last_vehicle_recv ∧
     (s.broadcast_sync t).gpu_list = s.gpu_list ∧
     (s.broadcast_sync t).disk_partitions = s.disk_partitions ∧
     (s.broadcast_sync t).net_interfaces = s.net_interfaces) := by
  refine ⟨?_, ?_, ?_⟩
  · rw [SharedState.broadcast_sync, List.length_map]
  · intro i hi q hq
    constructor
    · intro hfull
      rw [SharedState.broadcast_sync]
      show (s.subscribers.map _)[i]? = some q
      rw [List.getElem?_map, hq, Option.map_some', if_pos hfull]
    · intro hfull
      rw [SharedState.broadcast_sync]
      show (s.subscribers.map _)[i]? = some _
      rw [List.getElem?_map, hq, Option.map_some',
        if_neg (by rw [hfull]; exact Bool.false_ne_true)]
  · exact ⟨rfl, rfl, rfl, rfl, rfl, rfl, rfl, rfl, rfl, rfl, rfl, rfl, rfl⟩

/-- C9 witness: one full sink drops the update while a non-full sink
still receives the snapshot. -/
theorem broadcast_fanout_spec_witness :
    (let s0 := { SharedState.init with
      subscribers := [⟨1, ["old"]⟩, ⟨20, []⟩] }
    (s0.broadcast_sync ⟨0, 0⟩).subscribers[0]? = some ⟨1, ["old"]⟩ ∧
    (s0.broadcast_sync ⟨0, 0⟩).subscribers[1]? =
      some ⟨20, [s0.to_json ⟨0, 0⟩]⟩) := by
  have h := broadcast_fanout_spec
    { SharedState.init with subscribers := [⟨1, ["old"]⟩, ⟨20, []⟩] } ⟨0, 0⟩
  exact ⟨(h.2.1 0 (by norm_num) ⟨1, ["old"]⟩ rfl).1 (by decide),
    (h.2.1 1 (by norm_num) ⟨20, []⟩ rfl).2 (by decide)⟩

/-- Per-sink effect of one broadcast: a full sink is skipped, any other
sink receives the snapshot serialized from the broadcasting state. -/
theorem broadcast_subscribers_get (s : SharedState) (t : Clock) (i : Nat) (q : Sink)
    (hq : s.subscribers[i]? = some q) :
    (s.broadcast_sync t).subscribers[i]? =
      some (if Sink.isFull q then q
            else { q with items := q.items ++ [s.to_json t] }) := by
  rw [SharedState.broadcast_sync]
  show (s.subscribers.map _)[i]? = _
  rw [List.getElem?_map, hq, Option.map_some']

/-- When the three non-staleness alert conditions are off, validation
yields exactly the staleness alert or nothing. -/
theorem computeAlerts_of_quiet (s : SharedState) (now : ℚ)
    (hc1 : Value.truthy (Obj.getVal s.estop "is_estop") = false)
    (hc2 : Value.truthy (Obj.getVal s.control "estop") = false)
    (hc3 : (Value.eqInt (Obj.getVal s.mux "requested_mode") 2 &&
        Value.truthy (Obj.getVal s.mux "remote_enabled") &&
        !(Value.truthy (Obj.getVal s.mux "teleop_active"))) = false) :
    computeAlerts s now =
      if 0 < s.last_vehicle_recv then
        (if 3 < now - s.last_vehicle_recv then
          [⟨"error", "No vehicle data for " ++ fmt1 (now - s.last_vehicle_recv) ++ "s"⟩]
        else [])
      else [] := by
  simp only [computeAlerts, hc1, hc2, hc3, Bool.false_and,
    Bool.false_eq_true, if_false, List.nil_append]

/-- C3 counterexample: an indexed update does not rerun validation.  A
stale alert left in the list survives `update_gpu` even though a
validation pass over the post-update state would clear it, so the
claimed "stamp, validate, broadcast" behaviour fails at its validate
step. -/
theorem indexed_update_skips_validate_counterexample :
    ((({ SharedState.init with
        alerts := [⟨"error", "No vehicle data for 9.9s"⟩] }).update_gpu
          ⟨5, 100⟩ 0 []).alerts = [⟨"error", "No vehicle data for 9.9s"⟩]) ∧
    (computeAlerts (({ SharedState.init with
        alerts := [⟨"error", "No vehicle data for 9.9s"⟩] }).update_gpu
          ⟨5, 100⟩ 0 []) 5 = []) ∧
    ((({ SharedState.init with
        alerts := [⟨"error", "No vehicle data for 9.9s"⟩] }).update_gpu
          ⟨5, 100⟩ 0 []).alerts ≠
      computeAlerts (({ SharedState.init with
        alerts := [⟨"error", "No vehicle data for 9.9s"⟩] }).update_gpu
          ⟨5, 100⟩ 0 []) 5) := by
  have hR : ({ SharedState.init with
      alerts := [⟨"error", "No vehicle data for 9.9s"⟩] }).update_gpu
        ⟨5, 100⟩ 0 [] =
      { mux := initMux, twist := initTwist, network := initNetwork, hunter := initHunter, estop := initEStop, resources := initResources, remote_enabled := false, control := initControl, alerts := [⟨"error", "No vehicle data for 9.9s"⟩], last_vehicle_recv := 5, gpu_list := [[]], disk_partitions := [], net_interfaces := [], subscribers := [] } := rfl
  have hq : computeAlerts
      ({ mux := initMux, twist := initTwist, network := initNetwork, hunter := initHunter, estop := initEStop, resources := initResources, remote_enabled := false, control := initControl, alerts := [⟨"error", "No vehicle data for 9.9s"⟩], last_vehicle_recv := 5, gpu_list := [[]], disk_partitions := [], net_interfaces := [], subscribers := [] } : SharedState) 5 = [] := by
    have e1 : Value.truthy (Obj.getVal initEStop "is_estop") = false := rfl
    have e2 : Value.truthy (Obj.getVal initControl "estop") = false := rfl
    have e3 : (Value.eqInt (Obj.getVal initMux "requested_mode") 2 &&
        Value.truthy (Obj.getVal initMux "remote_enabled") &&
        !(Value.truthy (Obj.getVal initMux "teleop_active"))) = false := rfl
    rw [computeAlerts_of_quiet _ 5 e1 e2 e3]
    norm_num
  rw [hR, hq]
  refine ⟨rfl, rfl, ?_⟩
  exact fun h => List.cons_ne_nil _ _ h

/-- C3 amended: each indexed-collection update merges the slot, stamps
`last_received` and broadcasts the new snapshot synchronously, but —
unlike a sub-struct update — it does not run `validate()`: the alert
list is left exactly as it was. -/
theorem indexed_update_spec (s : SharedState) (t : Clock) (idx : Nat)
    (data : List (String × Value)) :
    ((s.update_gpu t idx data).gpu_list = upsert_list s.gpu_list idx data ∧
     (s.update_gpu t idx data).last_vehicle_recv = t.mono ∧
     (s.update_gpu t idx data).alerts = s.alerts ∧
     (∀ (i : Nat) (q : Sink), s.subscribers[i]? = some q →
       (s.update_gpu t idx data).subscribers[i]? =
         some (if Sink.isFull q then q
               else { q with items := q.items ++
                 [({ s with gpu_list := upsert_list s.gpu_list idx data, last_vehicle_recv := t.mono }).to_json t] }))) ∧
    ((s.update_disk_partition t idx data).disk_partitions =
        upsert_list s.disk_partitions idx data ∧
     (s.update_disk_partition t idx data).last_vehicle_recv = t.mono ∧
     (s.update_disk_partition t idx data).alerts = s.alerts ∧
     (∀ (i : Nat) (q : Sink), s.subscribers[i]? = some q →
       (s.update_disk_partition t idx data).subscribers[i]? =
         some (if Sink.isFull q then q
               else { q with items := q.items ++
                 [({ s with disk_partitions := upsert_list s.disk_partitions idx data, last_vehicle_recv := t.mono }).to_json t] }))) ∧
    ((s.update_net_interface t idx data).net_interfaces =
        upsert_list s.net_interfaces idx data ∧
     (s.update_net_interface t idx data).last_vehicle_recv = t.mono ∧
     (s.update_net_interface t idx data).alerts = s.alerts ∧
     (∀ (i : Nat) (q : Sink), s.subscribers[i]? = some q →
       (s.update_net_interface t idx data).subscribers[i]? =
         some (if Sink.isFull q then q
               else { q with items := q.items ++
                 [({ s with net_interfaces := upsert_list s.net_interfaces idx data, last_vehicle_recv := t.mono }).to_json t] }))) := by
  refine ⟨⟨rfl, rfl, rfl, ?_⟩, ⟨rfl, rfl, rfl, ?_⟩, ⟨rfl, rfl, rfl, ?_⟩⟩ <;>
    exact fun i q hq => broadcast_subscribers_get _ t i q hq

/-- C3 amended witness. -/
theorem indexed_update_spec_witness :
    (SharedState.update_gpu
      { SharedState.init with subscribers := [⟨20, []⟩] } ⟨1, 2⟩ 0
      [("gpu_usage", .q (1/2))]).subscribers[0]? =
      some (if Sink.isFull ⟨20, []⟩ then (⟨20, []⟩ : Sink)
            else { maxsize := 20, items := ([] : List String) ++
              [({ { SharedState.init with subscribers := [⟨20, []⟩] } with gpu_list := upsert_list ({ SharedState.init with subscribers := [⟨20, []⟩] }).gpu_list 0 [("gpu_usage", .q (1/2))], last_vehicle_recv := (⟨1, 2⟩ : Clock).mono }).to_json ⟨1, 2⟩] }) := by
  exact (indexed_update_spec { SharedState.init with subscribers := [⟨20, []⟩] }
    ⟨1, 2⟩ 0 [("gpu_usage", .q (1/2))]).1.2.2.2 0 ⟨20, []⟩ rfl

/-- C8: with `last_received = T` (and the other alert conditions off),
validation at T+2.9s yields no staleness alert while validation at
T+3.1s yields exactly one error-level alert whose message carries the
elapsed seconds; the alert list is replaced, not appended to, so the
result does not depend on the previous list. -/
theorem staleness_spec (s : SharedState) (T : ℚ) (prev : List Alert)
    (hT : 0 < T) (hrecv : s.last_vehicle_recv = T)
    (hc1 : Value.truthy (Obj.getVal s.estop "is_estop") = false)
    (hc2 : Value.truthy (Obj.getVal s.control "estop") = false)
    (hc3 : (Value.eqInt (Obj.getVal s.mux "requested_mode") 2 &&
        Value.truthy (Obj.getVal s.mux "remote_enabled") &&
        !(Value.truthy (Obj.getVal s.mux "teleop_active"))) = false) :
    computeAlerts s (T + 29/10) = [] ∧
    computeAlerts s (T + 31/10) =
      [⟨"error", "No vehicle data for " ++ fmt1 (31/10) ++ "s"⟩] ∧
    fmt1 (31/10) = "3.1" ∧
    ({ s with alerts := prev }.validate (T + 31/10)).alerts =
      [⟨"error", "No vehicle data for " ++ fmt1 (31/10) ++ "s"⟩] := by
  have hbase : ∀ now, computeAlerts s now =
      if 0 < s.last_vehicle_recv then
        (if 3 < now - s.last_vehicle_recv then
          [⟨"error", "No vehicle data for " ++ fmt1 (now - s.last_vehicle_recv) ++ "s"⟩]
        else [])
      else [] :=
    fun now => computeAlerts_of_quiet s now hc1 hc2 hc3
  have hage29 : (T + 29/10) - s.last_vehicle_recv = 29/10 := by
    rw [hrecv]; ring
  have hage31 : (T + 31/10) - s.last_vehicle_recv = 31/10 := by
    rw [hrecv]; ring
  have h29 : computeAlerts s (T + 29/10) = [] := by
    rw [hbase, if_pos (by rw [hrecv]; exact hT), hage29,
      if_neg (by norm_num)]
  have h31 : computeAlerts s (T + 31/10) =
      [⟨"error", "No vehicle data for " ++ fmt1 (31/10) ++ "s"⟩] := by
    rw [hbase, if_pos (by rw [hrecv]; exact hT), hage31,
      if_pos (by norm_num)]
  have hfmt : fmt1 (31/10) = "3.1" := by
    have h : round (10 * (31/10 : ℚ)) = 31 := by norm_num
    simp only [fmt1, h]
    rfl
  refine ⟨h29, h31, hfmt, ?_⟩
  have hsame : computeAlerts { s with alerts := prev } (T + 31/10)
      = computeAlerts s (T + 31/10) := rfl
  show computeAlerts { s with alerts := prev } (T + 31/10) = _
  rw [hsame, h31]

/-- C8 witness. -/
theorem staleness_spec_witness :
    computeAlerts { SharedState.init with last_vehicle_recv := 1 } (1 + 29/10) = [] ∧
    ({ { SharedState.init with last_vehicle_recv := 1 } with
        alerts := [⟨"warn", "leftover"⟩] }.validate (1 + 31/10)).alerts =
      [⟨"error", "No vehicle data for " ++ fmt1 (31/10) ++ "s"⟩] := by
  have h := staleness_spec { SharedState.init with last_vehicle_recv := 1 } 1
    [⟨"warn", "leftover"⟩] (by norm_num) rfl (by rfl) (by rfl) (by rfl)
  exact ⟨h.1, h.2.2.2⟩

/-- C5: for every valid sub-struct key, `update_packet` overwrites
exactly the schema fields named in the map (last value wins), silently
ignores unknown names without creating fields, then stamps
`last_received`, recomputes the alert list and broadcasts the validated
snapshot, all synchronously. -/
theorem update_packet_spec (s : SharedState) (t : Clock) (key : String)
    (data : List (String × Value)) (obj : Obj)
    (hkey : key ∈ subStructKeys) (hobj : s.getSub key = some obj) :
    ((s.update_packet t key data).getSub key = some (Obj.applyFields obj data)) ∧
    ((Obj.applyFields obj data).map Prod.fst = obj.map Prod.fst) ∧
    (∀ k, Obj.getVal (Obj.applyFields obj data) k =
      if Obj.hasKey obj k then orOpt (lookupLast data k) (Obj.getVal obj k)
      else Obj.getVal obj k) ∧
    ((s.update_packet t key data).last_vehicle_recv = t.mono) ∧
    ((s.update_packet t key data).alerts =
      computeAlerts { s.setSub key (Obj.applyFields obj data) with last_vehicle_recv := t.mono } t.mono) ∧
    (∀ (i : Nat) (q : Sink), s.subscribers[i]? = some q →
      (s.update_packet t key data).subscribers[i]? =
        some (if Sink.isFull q then q
              else { q with items := q.items ++
                [(SharedState.validate { s.setSub key (Obj.applyFields obj data) with last_vehicle_recv := t.mono } t.mono).to_json t] })) := by
  fin_cases hkey
  all_goals {
    replace hobj := (Option.some.inj hobj).symm
    subst hobj
    exact ⟨rfl, Obj.keys_applyFields data _, Obj.getVal_applyFields data _,
      rfl, rfl, fun i q hq => broadcast_subscribers_get _ t i q hq⟩
  }

/-- C5 witness: merging into the hunter sub-struct overwrites the known
field, ignores the unknown one, stamps, validates and broadcasts. -/
theorem update_packet_spec_witness :
    ((SharedState.update_packet SharedState.init ⟨7, 9⟩ "hunter"
        [("linear_vel", .q 2), ("no_such_field", .i 1)]).getSub "hunter" =
      some (Obj.applyFields initHunter [("linear_vel", .q 2), ("no_such_field", .i 1)])) ∧
    ((Obj.applyFields initHunter [("linear_vel", .q 2), ("no_such_field", .i 1)]).map
        Prod.fst = initHunter.map Prod.fst) ∧
    ((SharedState.update_packet SharedState.init ⟨7, 9⟩ "hunter"
        [("linear_vel", .q 2), ("no_such_field", .i 1)]).last_vehicle_recv = (7 : ℚ)) ∧
    ((SharedState.update_packet SharedState.init ⟨7, 9⟩ "hunter"
        [("linear_vel", .q 2), ("no_such_field", .i 1)]).alerts =
      computeAlerts { SharedState.init.setSub "hunter" (Obj.applyFields initHunter [("linear_vel", .q 2), ("no_such_field", .i 1)]) with last_vehicle_recv := (7 : ℚ) } 7) := by
  have h := update_packet_spec SharedState.init ⟨7, 9⟩ "hunter"
    [("linear_vel", .q 2), ("no_such_field", .i 1)] initHunter
    (by decide) rfl
  exact ⟨h.1, h.2.1, h.2.2.2.1, h.2.2.2.2.1⟩

/-- C1: a send-loop iteration transmits a teleop message only when the
store's commanded mode equals 2 and the local e-stop flag is off, both
read from the store at that tick; with the gate closed a due teleop
tick is consumed (the timer is reset) without any teleop transmission,
and with the gate open a due tick transmits the current command. -/
theorem teleop_gate_spec (cfg : SendCfg) (s : SharedState) (p : VehicleProtocol)
    (tm : LoopTimers) (t : Clock) :
    (∀ m ∈ (run_send_loop_tick cfg s p tm t).2.2.2,
      SentMsg.isTeleop m = true → teleopGate s = true) ∧
    (teleopGate s = false →
      (∀ m ∈ (run_send_loop_tick cfg s p tm t).2.2.2, SentMsg.isTeleop m = false) ∧
      (cfg.tc_interval ≤ t.mono - tm.last_tc →
        (run_send_loop_tick cfg s p tm t).2.2.1.last_tc = t.mono)) ∧
    (teleopGate s = true → cfg.tc_interval ≤ t.mono - tm.last_tc →
      ((run_send_loop_tick cfg s p tm t).2.2.2.filter SentMsg.isTeleop).map
          SentMsg.body =
        [.teleop (round3 (Value.num (Obj.getVal s.control "linear_x")))
                 (round3 (Value.num (Obj.getVal s.control "angular_z")))]) := by
  by_cases hb : cfg.hb_interval ≤ t.mono - tm.last_hb <;>
    by_cases tc : cfg.tc_interval ≤ t.mono - tm.last_tc <;>
      by_cases g : teleopGate s <;>
        simp [run_send_loop_tick, hb, tc, g, VehicleProtocol.send_heartbeat,
          VehicleProtocol.send_teleop, VehicleProtocol.next_seq, SentMsg.isTeleop]

/-- C1 witness: with mode 0 the due teleop tick sends nothing and the
timer is still consumed. -/
theorem teleop_gate_spec_witness :
    (∀ m ∈ (run_send_loop_tick (mkSendCfg 5 20 (1/2)) SharedState.init ⟨0⟩
        ⟨0, 0, 0⟩ ⟨10, 99⟩).2.2.2, SentMsg.isTeleop m = false) ∧
    (run_send_loop_tick (mkSendCfg 5 20 (1/2)) SharedState.init ⟨0⟩
        ⟨0, 0, 0⟩ ⟨10, 99⟩).2.2.1.last_tc = 10 := by
  have h := (teleop_gate_spec (mkSendCfg 5 20 (1/2)) SharedState.init ⟨0⟩
    ⟨0, 0, 0⟩ ⟨10, 99⟩).2.1 (by rfl)
  exact ⟨h.1, h.2 (by norm_num [mkSendCfg])⟩

end NevGcs
